import Mathlib

/-!
Verification of the realtime interview relay of the `hr-ai` backend
(`backend/app/services/realtime_service.py` and `backend/app/routers/realtime.py`),
shallowly embedded: the mutable `RealtimeSession` becomes an explicit state
record, and the two relay loops (`proxy_client_to_openai`,
`proxy_openai_to_client`) become step functions from a state and one inbound
message to a new state plus the lists of messages sent to the upstream socket
and to the client socket.  Python dict `.get` with a default is modelled by
`Option` fields with `getD`; Python list indexing (with its negative-index
wrap-around and the `IndexError` caught by a bare `except`) is modelled by
`pyIndex`; an unparseable JSON `arguments` string is modelled by `ArgSrc.bad`,
and the exception `json.loads` raises on it by the `crash` flag of a step,
which terminates the upstream read loop (the `try/except` in the source wraps
the whole `async for`, not one iteration).
-/

namespace HrAi

/-- One entry of a vacancy scenario: a dict `{competence, question}`.
`q.get("competence", "")` is modelled by storing `""` for a missing key,
which the source code cannot distinguish from a present empty string. -/
structure ScenarioItem where
  competence : String
  question : String
deriving DecidableEq

/-- The free-form `session.context` dict.  Only the keys the code reads or
writes are modelled; `none` is an absent key, so `ctx.get(k, d)` is `getD d`. -/
structure Ctx where
  interview_completed : Option Bool := none
  overall_score : Option Int := none
  strengths : Option (List String) := none
  weaknesses : Option (List String) := none
  recommendation : Option String := none
  passed : Option Bool := none
  lang : Option String := none
deriving DecidableEq

/-- One element of `session.scores`:
`{"question": int, "score": int, "reasoning": str}`. -/
structure ScoreEntry where
  question : Nat
  score : Int
  reasoning : String
deriving DecidableEq

/-- `RealtimeSession` (realtime_service.py, `__init__`), plus the `scenario`
attribute the router sets right after construction.  `created_at` and the raw
`ws_connection` handle are omitted: no observable behaviour modelled here
reads them. -/
structure Session where
  session_id : String
  candidate_id : String
  conversation_items : List String
  scores : List ScoreEntry
  total_questions : Nat
  current_question : Nat
  context : Ctx
  active_response_id : Option String
  assistant_speaking : Bool
  question_marked : Bool
  answered_primary : Nat
  user_speaking_ms : Nat
  lang : String
  min_primary_required : Nat
  min_dialog_ms : Nat
  scenario : List ScenarioItem
deriving DecidableEq

/-- The number of primary questions counted by `realtime_websocket`
(realtime.py lines 163-169): entries that are dicts whose `competence` is
truthy and not `intro`/`final`. -/
def primaryCount (scenario : List ScenarioItem) : Nat :=
  scenario.countP fun q =>
    q.competence ≠ "" ∧ q.competence ≠ "intro" ∧ q.competence ≠ "final"

/-- `realtime_session.total_questions = max(1, primary_count or len(scenario))`
(realtime.py line 170): Python `or` falls back to the scenario length when
`primary_count` is `0`. -/
def totalQuestionsFor (scenario : List ScenarioItem) : Nat :=
  max 1 (if primaryCount scenario ≠ 0 then primaryCount scenario else scenario.length)

/-- The spec's own words for the same quantity ("count of primary,
non-intro/final competences, minimum 1"), used to compare the claim against
the code's `totalQuestionsFor`. -/
def specTotalQuestions (scenario : List ScenarioItem) : Nat :=
  max 1 (scenario.countP fun q => q.competence ≠ "intro" ∧ q.competence ≠ "final")

/-- `RealtimeSession.__init__` followed by the router's scenario assignment
and `total_questions` computation (realtime.py lines 157-172). -/
def initSession (session_id candidate_id : String) (scenario : List ScenarioItem) :
    Session where
  session_id := session_id
  candidate_id := candidate_id
  conversation_items := []
  scores := []
  total_questions := if scenario ≠ [] then totalQuestionsFor scenario else 5
  current_question := 0
  context := {}
  active_response_id := none
  assistant_speaking := false
  question_marked := false
  answered_primary := 0
  user_speaking_ms := 0
  lang := "ru"
  min_primary_required := 3
  min_dialog_ms := 60000
  scenario := scenario

/-- The JSON arguments of a tool call, already parsed.  `none` is an absent
key, so `arguments.get(k, d)` is `getD d`. -/
structure Args where
  score : Option Int := none
  reasoning : Option String := none
  overall_score : Option Int := none
  strengths : Option (List String) := none
  weaknesses : Option (List String) := none
  recommendation : Option String := none
  index : Option Int := none
  is_primary : Option Bool := none
deriving DecidableEq

/-- The raw `function.arguments` string of a `response.function_call` event:
either it parses to an argument dict, or `json.loads` raises on it. -/
inductive ArgSrc where
  | ok (a : Args)
  | bad
deriving DecidableEq

/-- The dict returned by `handle_function_call`: `status` and `message`
always, `overall_score` and `passed` only on a successful `end_interview`. -/
structure FCResult where
  status : String
  message : String
  overall_score : Option Int := none
  passed : Option Bool := none
deriving DecidableEq

/-- `handle_function_call` (realtime_service.py lines 324-383), returning the
updated session together with the result dict.  The function mutates only
`scores` (on `evaluate_answer`) and `context` (on a threshold-passing
`end_interview`). -/
def handle_function_call (s : Session) (function_name : String) (arguments : Args) :
    Session × FCResult :=
  if function_name = "evaluate_answer" then
    ({ s with scores := s.scores ++
        [{ question := s.current_question
           score := arguments.score.getD 50
           reasoning := arguments.reasoning.getD "" }] },
     { status := "success", message := "Оценка сохранена" })
  else if function_name = "end_interview" then
    if s.answered_primary < s.min_primary_required then
      (s, { status := "ignored"
            message := "Слишком рано для завершения. Нужно ещё " ++
              toString (s.min_primary_required - s.answered_primary) ++ " вопросов" })
    else if s.user_speaking_ms < s.min_dialog_ms then
      (s, { status := "ignored"
            message := "Недостаточно диалога. Нужно ещё " ++
              toString ((s.min_dialog_ms - s.user_speaking_ms) / 1000) ++ " секунд речи" })
    else
      let overall_score := arguments.overall_score.getD 50
      let strengths := arguments.strengths.getD []
      let weaknesses := arguments.weaknesses.getD []
      let recommendation := arguments.recommendation.getD "maybe"
      let passed := recommendation = "hire" || recommendation = "maybe"
      ({ s with context :=
          { s.context with
            interview_completed := some true
            overall_score := some overall_score
            strengths := some strengths
            weaknesses := some weaknesses
            recommendation := some recommendation
            passed := some passed } },
       { status := "success", message := "Интервью завершено"
         overall_score := some overall_score, passed := some passed })
  else
    (s, { status := "error", message := "Неизвестная функция: " ++ function_name })

/-- The dict returned by `score_and_finalize` (realtime_service.py
lines 296-321). -/
structure FinalResults where
  decision : String
  overall_score : Int
  redirect_url : String
  recommendation : String
  strengths : List String
  weaknesses : List String
  scores : List ScoreEntry
deriving DecidableEq

/-- `score_and_finalize` (realtime_service.py lines 296-321): reads the result
context back out of the session, derives the decision label and the redirect
URL. -/
def score_and_finalize (s : Session) : FinalResults :=
  let overall_score := s.context.overall_score.getD 0
  let recommendation := s.context.recommendation.getD "maybe"
  let passed := s.context.passed.getD false
  let decision :=
    if recommendation = "hire" then "hired"
    else if recommendation = "maybe" ∧ overall_score ≥ 70 then "maybe"
    else "rejected"
  { decision := decision
    overall_score := overall_score
    redirect_url := "/complete.html?score=" ++ toString overall_score ++
      "&passed=" ++ (if passed then "1" else "0") ++ "&decision=" ++ decision
    recommendation := recommendation
    strengths := s.context.strengths.getD []
    weaknesses := s.context.weaknesses.getD []
    scores := s.scores }

/-- An upstream (OpenAI → server) event, carrying only the fields the relay
reads.  `responseCreated rid` carries the already-combined
`response.get("id") or data.get("response_id")`; `functionCall` carries the
function name, the raw arguments string (parsed or unparseable) and the
`call_id`; `transcriptionCompleted` carries the transcript's word count. -/
inductive UpMsg where
  | responseCreated (rid : Option String)
  | functionCall (name : String) (argsrc : ArgSrc) (call_id : Option String)
  | conversationItemCreated (item : String)
  | audioDelta (rid : Option String)
  | audioDone
  | responseDone
  | transcriptionCompleted (words : Nat)
  | other (etype : String)
deriving DecidableEq

/-- A message the relay sends to the client websocket. -/
inductive CliMsg where
  | responseCreated (rid : Option String)
  | interviewCompleted (decision : String) (redirect_url : String)
  | progressUpdate (current : Nat) (total : Nat)
  | langLocked (lang : String)
  | forwarded (m : UpMsg)
deriving DecidableEq

/-- A client-originated message (one `receive_json` of
`proxy_client_to_openai`), carrying only the fields the relay reads. -/
structure CliInMsg where
  etype : String
  lang : Option String := none
  ms : Option Int := none
deriving DecidableEq

/-- A message the server sends to the upstream socket. -/
inductive UpOut where
  | sessionUpdate (voice : String) (language : String)
  | responseCancel
  | functionCallOutput (call_id : Option String) (output : FCResult)
  | responseCreateEndInstr
  | forwardedClient (d : CliInMsg)
deriving DecidableEq

/-- Result of processing one inbound message in either relay: the new session,
the messages sent upstream and to the client (in send order), and whether an
exception escaped the per-message processing (terminating that relay's read
loop, since the source's `try/except` encloses the whole loop). -/
structure StepOut where
  sess : Session
  toUpstream : List UpOut
  toClient : List CliMsg
  crash : Bool := false
deriving DecidableEq

/-- One iteration of `proxy_client_to_openai` (realtime.py lines 317-375) on
one received message. -/
def proxy_client_step (s : Session) (d : CliInMsg) : StepOut :=
  if d.etype = "session.update_lang" then
    let lang_raw := (d.lang.getD "").toLower
    let lang := if lang_raw.startsWith "ru" then "ru"
      else if lang_raw.startsWith "en" then "en" else "en"
    let voice := if lang = "ru" then "verse" else "alloy"
    { sess := { s with context := { s.context with lang := some lang }, lang := lang }
      toUpstream := [.sessionUpdate voice lang]
      toClient := [.langLocked lang] }
  else if d.etype = "input_audio_buffer.append" ∧ s.assistant_speaking then
    { sess := s, toUpstream := [], toClient := [] }
  else if d.etype = "response.cancel" then
    { sess := { s with assistant_speaking := false, active_response_id := none }
      toUpstream := [.responseCancel], toClient := [] }
  else if d.etype = "stt.user_final" then
    let ms := d.ms.getD 0
    { sess := if ms > 0 then { s with user_speaking_ms := s.user_speaking_ms + ms.toNat } else s
      toUpstream := [], toClient := [] }
  else
    let pre : List UpOut :=
      if d.etype = "response.create" ∧ s.active_response_id.isSome
      then [.responseCancel] else []
    { sess := s, toUpstream := pre ++ [.forwardedClient d], toClient := [] }

/-- Python list indexing `l[i]`, `some` on success: a negative `i` counts from
the end; out of range raises `IndexError`, modelled as `none`. -/
def pyIndex (l : List α) (i : Int) : Option α :=
  if 0 ≤ i then l.get? i.toNat
  else if 0 ≤ Int.ofNat l.length + i then l.get? (Int.ofNat l.length + i).toNat
  else none

/-- The effective primariness computed by the `question_asked` tracking block
(realtime.py lines 454-466): `args.get("is_primary", True)`, overridden by the
scenario entry's competence only when `args.get("is_primary")` is falsy, the
scenario is non-empty, the `question_idx <= len(scenario)` guard passes, and
the (Python) index succeeds; a lookup failure (or the bare `except`) leaves
the default in place. -/
def effectiveIsPrimary (scenario : List ScenarioItem) (a : Args) (question_idx : Int) : Bool :=
  let is_primary := a.is_primary.getD true
  if a.is_primary ≠ some true ∧ scenario ≠ [] then
    if question_idx ≤ Int.ofNat scenario.length then
      match pyIndex scenario (question_idx - 1) with
      | some q => q.competence ≠ "intro" ∧ q.competence ≠ "final"
      | none => is_primary
    else is_primary
  else is_primary

/-- The auto-finish condition (realtime.py lines 480-485): at the question
limit, not yet completed, both thresholds met. -/
def autoFinishReady (s : Session) : Bool :=
  s.current_question ≥ s.total_questions ∧
  ¬ (s.context.interview_completed.getD false) ∧
  s.answered_primary ≥ s.min_primary_required ∧
  s.user_speaking_ms ≥ s.min_dialog_ms

/-- The debounced progress-tracking block for a `question_asked` tool call
(realtime.py lines 449-495), entered when `question_marked` is still false:
marks the response, decides primariness, then (if primary) increments
`answered_primary`, advances `current_question` by one clamped step (emitting
`progress.update` when it actually moved), and finally checks the auto-finish
trigger. -/
def questionAskedEffect (s : Session) (a : Args) :
    Session × List UpOut × List CliMsg :=
  let s1 := { s with question_marked := true }
  let question_idx := a.index.getD (Int.ofNat s1.current_question + 1)
  if effectiveIsPrimary s1.scenario a question_idx then
    let s2 := { s1 with answered_primary := s1.answered_primary + 1 }
    let idx := max 1 (min (s2.current_question + 1) s2.total_questions)
    if idx > s2.current_question then
      let s3 := { s2 with current_question := idx }
      (s3, (if autoFinishReady s3 then [UpOut.responseCreateEndInstr] else []),
       [CliMsg.progressUpdate idx s2.total_questions])
    else
      (s2, (if autoFinishReady s2 then [UpOut.responseCreateEndInstr] else []), [])
  else
    (s1, (if autoFinishReady s1 then [UpOut.responseCreateEndInstr] else []), [])

/-- One iteration of `proxy_openai_to_client` (realtime.py lines 390-523) on
one upstream message.  A `response.function_call` with unparseable arguments
crashes (the first `json.loads`, line 413, is not guarded); otherwise the
call is dispatched to `handle_function_call`, its result echoed upstream, a
successful `end_interview` additionally emits the completion event, the
second (guarded) block tracks `question_asked` progress, and the raw event is
forwarded to the client at the end of the iteration. -/
def proxy_openai_step (s : Session) (m : UpMsg) : StepOut :=
  match m with
  | .responseCreated rid =>
      { sess := { s with question_marked := false, active_response_id := rid,
                         assistant_speaking := true }
        toUpstream := [], toClient := [.responseCreated rid] }
  | .functionCall name argsrc call_id =>
      match argsrc with
      | .bad => { sess := s, toUpstream := [], toClient := [], crash := true }
      | .ok args =>
        let hr := handle_function_call s name args
        let cli1 : List CliMsg :=
          if name = "end_interview" ∧ hr.2.status = "success" then
            [.interviewCompleted (score_and_finalize hr.1).decision
              (score_and_finalize hr.1).redirect_url]
          else []
        if name = "question_asked" then
          if hr.1.question_marked then
            { sess := hr.1, toUpstream := [.functionCallOutput call_id hr.2]
              toClient := cli1 ++ [.forwarded m] }
          else
            let qa := questionAskedEffect hr.1 args
            { sess := qa.1
              toUpstream := [.functionCallOutput call_id hr.2] ++ qa.2.1
              toClient := cli1 ++ qa.2.2 ++ [.forwarded m] }
        else
          { sess := hr.1, toUpstream := [.functionCallOutput call_id hr.2]
            toClient := cli1 ++ [.forwarded m] }
  | .conversationItemCreated item =>
      { sess := { s with conversation_items := s.conversation_items ++ [item] }
        toUpstream := [], toClient := [.forwarded m] }
  | .audioDelta rid =>
      if s.active_response_id.isSome ∧ rid.isSome ∧ rid ≠ s.active_response_id then
        { sess := s, toUpstream := [], toClient := [] }
      else
        { sess := s, toUpstream := []
          toClient := [.forwarded (.audioDelta (rid.orElse fun _ => s.active_response_id))] }
  | .audioDone =>
      { sess := { s with assistant_speaking := false, active_response_id := none }
        toUpstream := [], toClient := [.forwarded m] }
  | .responseDone =>
      { sess := { s with assistant_speaking := false, active_response_id := none }
        toUpstream := [], toClient := [.forwarded m] }
  | .transcriptionCompleted words =>
      { sess := { s with user_speaking_ms := s.user_speaking_ms + words * 60 * 1000 / 150 }
        toUpstream := [], toClient := [.forwarded m] }
  | .other _ =>
      { sess := s, toUpstream := [], toClient := [.forwarded m] }

/-- The upstream relay's read loop (`async for message in openai_ws` wrapped in
one `try/except`): messages are processed in order; an exception escaping one
iteration is caught *outside* the loop, so processing stops and the remaining
messages are never read. -/
def proxy_openai_loop (s : Session) : List UpMsg → Session × List UpOut × List CliMsg
  | [] => (s, [], [])
  | m :: rest =>
    let out := proxy_openai_step s m
    if out.crash then (out.sess, out.toUpstream, out.toClient)
    else
      let (s', ups, clis) := proxy_openai_loop out.sess rest
      (s', out.toUpstream ++ ups, out.toClient ++ clis)

/-- An event of the interleaved execution of the two relays: one inbound
message on either socket. -/
inductive Ev where
  | fromClient (d : CliInMsg)
  | fromUpstream (m : UpMsg)
deriving DecidableEq

/-- The state transition of one event, whichever relay handles it. -/
def stepEv (s : Session) (e : Ev) : StepOut :=
  match e with
  | .fromClient d => proxy_client_step s d
  | .fromUpstream m => proxy_openai_step s m

/-- The session state after a sequence of interleaved events. -/
def runEvents (s : Session) (es : List Ev) : Session :=
  es.foldl (fun s e => (stepEv s e).sess) s

/-- Event `e` replaces a non-null `active_response_id` by a different non-null
value in one transition. -/
def Overwrites (s : Session) (e : Ev) : Prop :=
  ∃ a b, s.active_response_id = some a ∧
    (stepEv s e).sess.active_response_id = some b ∧ a ≠ b

/-- Counts `interview.completed` events in a client-bound message list. -/
def countCompleted (l : List CliMsg) : Nat :=
  l.countP fun m => match m with | .interviewCompleted _ _ => true | _ => false

/-- Counts `progress.update` events in a client-bound message list. -/
def countProgress (l : List CliMsg) : Nat :=
  l.countP fun m => match m with | .progressUpdate _ _ => true | _ => false

/-- The session invariant of §3 of the spec: the question counter stays within
`[0, total_questions]`, and there is at least one question. -/
def SessionInv (s : Session) : Prop :=
  1 ≤ s.total_questions ∧ s.current_question ≤ s.total_questions

/-! ### Helper lemmas -/

lemma hfc_question_asked (s : Session) (a : Args) :
    handle_function_call s "question_asked" a =
      (s, { status := "error", message := "Неизвестная функция: question_asked" }) := by
  simp [handle_function_call]

lemma hfc_preserves (s : Session) (n : String) (a : Args) :
    ((handle_function_call s n a).1).current_question = s.current_question ∧
    ((handle_function_call s n a).1).total_questions = s.total_questions ∧
    ((handle_function_call s n a).1).active_response_id = s.active_response_id ∧
    ((handle_function_call s n a).1).question_marked = s.question_marked := by
  simp only [handle_function_call]
  split
  · exact ⟨rfl, rfl, rfl, rfl⟩
  split
  · split
    · exact ⟨rfl, rfl, rfl, rfl⟩
    split
    · exact ⟨rfl, rfl, rfl, rfl⟩
    · exact ⟨rfl, rfl, rfl, rfl⟩
  · exact ⟨rfl, rfl, rfl, rfl⟩

lemma qae_marked (s : Session) (a : Args) :
    (questionAskedEffect s a).1.question_marked = true := by
  simp only [questionAskedEffect]
  split
  · split <;> rfl
  · rfl

lemma qae_progress_le (s : Session) (a : Args) :
    countProgress (questionAskedEffect s a).2.2 ≤ 1 := by
  simp only [questionAskedEffect]
  split
  · split <;> simp [countProgress]
  · simp [countProgress]

lemma qae_fields (s : Session) (a : Args) :
    (questionAskedEffect s a).1.total_questions = s.total_questions ∧
    (questionAskedEffect s a).1.active_response_id = s.active_response_id ∧
    s.current_question ≤ (questionAskedEffect s a).1.current_question ∧
    (s.current_question ≤ s.total_questions → 1 ≤ s.total_questions →
      (questionAskedEffect s a).1.current_question ≤ s.total_questions) := by
  simp only [questionAskedEffect]
  split
  · split
    · refine ⟨rfl, rfl, by dsimp only; omega, by dsimp only; omega⟩
    · exact ⟨rfl, rfl, le_refl _, fun h _ => h⟩
  · exact ⟨rfl, rfl, le_refl _, fun h _ => h⟩

lemma qae_spec (s : Session) (a : Args) :
    (questionAskedEffect s a).1.answered_primary
        = s.answered_primary +
          (if effectiveIsPrimary s.scenario a (a.index.getD (Int.ofNat s.current_question + 1))
           then 1 else 0) ∧
    (questionAskedEffect s a).1.current_question
        = (if effectiveIsPrimary s.scenario a (a.index.getD (Int.ofNat s.current_question + 1))
           then max s.current_question (max 1 (min (s.current_question + 1) s.total_questions))
           else s.current_question) ∧
    countProgress (questionAskedEffect s a).2.2
        = (if effectiveIsPrimary s.scenario a (a.index.getD (Int.ofNat s.current_question + 1)) ∧
             max 1 (min (s.current_question + 1) s.total_questions) > s.current_question
           then 1 else 0) := by
  simp only [questionAskedEffect]
  split
  · rename_i hp
    split
    · rename_i hgt
      refine ⟨by simp [hp], ?_, ?_⟩
      · simp only [hp, if_true]
        omega
      · simp only [countProgress, List.countP]
        rw [if_pos ⟨hp, hgt⟩]
        rfl
    · rename_i hgt
      refine ⟨by simp [hp], ?_, ?_⟩
      · simp only [hp, if_true]
        omega
      · simp only [countProgress, List.countP]
        rw [if_neg]
        · rfl
        · intro hc
          exact hgt hc.2
  · rename_i hp
    rw [Bool.not_eq_true] at hp
    refine ⟨by simp [hp], by simp [hp], ?_⟩
    simp only [countProgress, List.countP, hp]
    rw [if_neg]
    · rfl
    · intro hc
      simp [hp] at hc

lemma step_qa_marked (t : Session) (a : Args) (k : Option String)
    (h : t.question_marked = true) :
    proxy_openai_step t (.functionCall "question_asked" (.ok a) k) =
      { sess := t
        toUpstream := [.functionCallOutput k
          { status := "error", message := "Неизвестная функция: question_asked" }]
        toClient := [.forwarded (.functionCall "question_asked" (.ok a) k)] } := by
  simp [proxy_openai_step, handle_function_call, h]

lemma step_qa_unmarked (s : Session) (a : Args) (k : Option String)
    (h : s.question_marked = false) :
    proxy_openai_step s (.functionCall "question_asked" (.ok a) k) =
      { sess := (questionAskedEffect s a).1
        toUpstream := UpOut.functionCallOutput k
            { status := "error", message := "Неизвестная функция: question_asked" } ::
          (questionAskedEffect s a).2.1
        toClient := (questionAskedEffect s a).2.2 ++
          [.forwarded (.functionCall "question_asked" (.ok a) k)] } := by
  simp [proxy_openai_step, handle_function_call, h]

lemma step_qa_marked_after (s : Session) (a : Args) (k : Option String) :
    (proxy_openai_step s (.functionCall "question_asked" (.ok a) k)).sess.question_marked
      = true := by
  by_cases h : s.question_marked
  · simp [proxy_openai_step, handle_function_call, h]
  · simp [proxy_openai_step, handle_function_call, h, qae_marked]

lemma client_step_fields (s : Session) (d : CliInMsg) :
    (proxy_client_step s d).sess.current_question = s.current_question ∧
    (proxy_client_step s d).sess.total_questions = s.total_questions ∧
    ((proxy_client_step s d).sess.active_response_id = s.active_response_id ∨
     (proxy_client_step s d).sess.active_response_id = none) := by
  simp only [proxy_client_step]
  repeat' split
  all_goals simp

lemma step_fc_sess (s : Session) (n : String) (a : Args) (k : Option String) :
    (proxy_openai_step s (.functionCall n (.ok a) k)).sess.active_response_id
        = s.active_response_id ∧
    (proxy_openai_step s (.functionCall n (.ok a) k)).sess.total_questions
        = s.total_questions ∧
    s.current_question ≤ (proxy_openai_step s (.functionCall n (.ok a) k)).sess.current_question ∧
    (s.current_question ≤ s.total_questions → 1 ≤ s.total_questions →
      (proxy_openai_step s (.functionCall n (.ok a) k)).sess.current_question
        ≤ s.total_questions) := by
  have hp := hfc_preserves s n a
  have hq := qae_fields (handle_function_call s n a).1 a
  simp only [proxy_openai_step]
  split
  · split
    · exact ⟨hp.2.2.1, hp.2.1, le_of_eq hp.1.symm, fun h1 h2 => hp.1 ▸ h1⟩
    · refine ⟨hq.2.1.trans hp.2.2.1, hq.1.trans hp.2.1, ?_, ?_⟩
      · calc s.current_question = _ := hp.1.symm
          _ ≤ _ := hq.2.2.1
      · intro h1 h2
        have := hq.2.2.2 (by rw [hp.1, hp.2.1]; exact h1) (by rw [hp.2.1]; exact h2)
        rwa [hp.2.1] at this
  · exact ⟨hp.2.2.1, hp.2.1, le_of_eq hp.1.symm, fun h1 h2 => hp.1 ▸ h1⟩

lemma stepEv_sess (s : Session) (e : Ev) :
    (stepEv s e).sess.total_questions = s.total_questions ∧
    s.current_question ≤ (stepEv s e).sess.current_question ∧
    (s.current_question ≤ s.total_questions → 1 ≤ s.total_questions →
      (stepEv s e).sess.current_question ≤ s.total_questions) ∧
    ((stepEv s e).sess.active_response_id = s.active_response_id ∨
     (stepEv s e).sess.active_response_id = none ∨
     ∃ rid, e = Ev.fromUpstream (UpMsg.responseCreated rid)) := by
  cases e with
  | fromClient d =>
      have h := client_step_fields s d
      exact ⟨h.2.1, le_of_eq h.1.symm, fun h1 _ => h.1 ▸ h1,
        h.2.2.elim (fun x => Or.inl x) (fun x => Or.inr (Or.inl x))⟩
  | fromUpstream m =>
      cases m with
      | responseCreated rid =>
          exact ⟨rfl, le_refl _, fun h1 _ => h1, Or.inr (Or.inr ⟨rid, rfl⟩)⟩
      | functionCall n argsrc k =>
          cases argsrc with
          | bad => exact ⟨rfl, le_refl _, fun h1 _ => h1, Or.inl rfl⟩
          | ok a =>
              have h := step_fc_sess s n a k
              exact ⟨h.2.1, h.2.2.1, h.2.2.2, Or.inl h.1⟩
      | conversationItemCreated item =>
          exact ⟨rfl, le_refl _, fun h1 _ => h1, Or.inl rfl⟩
      | audioDelta rid =>
          simp only [stepEv, proxy_openai_step]
          split
          · exact ⟨rfl, le_refl _, fun h1 _ => h1, Or.inl rfl⟩
          · exact ⟨rfl, le_refl _, fun h1 _ => h1, Or.inl rfl⟩
      | audioDone => exact ⟨rfl, le_refl _, fun h1 _ => h1, Or.inr (Or.inl rfl)⟩
      | responseDone => exact ⟨rfl, le_refl _, fun h1 _ => h1, Or.inr (Or.inl rfl)⟩
      | transcriptionCompleted w => exact ⟨rfl, le_refl _, fun h1 _ => h1, Or.inl rfl⟩
      | other t => exact ⟨rfl, le_refl _, fun h1 _ => h1, Or.inl rfl⟩

lemma runEvents_inv (s : Session) (es : List Ev) (h : SessionInv s) :
    SessionInv (runEvents s es) := by
  induction es generalizing s with
  | nil => exact h
  | cons e es ih =>
      have hs := stepEv_sess s e
      refine ih _ ⟨?_, ?_⟩
      · rw [hs.1]
        exact h.1
      · rw [hs.1]
        exact hs.2.2.1 h.2 h.1

/-! ### Claim theorems -/

/-- Claim C1: an `end_interview` tool call dispatched while
`answered_primary ≥ min_primary_required` and
`user_speaking_ms ≥ min_dialog_ms` marks the interview completed, stores
`overall_score`, `strengths`, `weaknesses`, `recommendation` in the result
context with `passed` true iff the recommendation is `hire` or `maybe`,
echoes a success result upstream, and the relay emits exactly one
`interview.completed` event carrying the decision label (`hired` for `hire`,
`maybe` for `maybe` with score ≥ 70, else `rejected`) and a redirect URL
encoding score, passed and decision. -/
theorem end_interview_success_effects (s : Session) (a : Args) (k : Option String)
    (h1 : s.min_primary_required ≤ s.answered_primary)
    (h2 : s.min_dialog_ms ≤ s.user_speaking_ms) :
    let score := a.overall_score.getD 50
    let rc := a.recommendation.getD "maybe"
    let pb := (rc = "hire" || rc = "maybe")
    let decision := if rc = "hire" then "hired"
      else if rc = "maybe" ∧ score ≥ 70 then "maybe" else "rejected"
    let out := proxy_openai_step s (.functionCall "end_interview" (.ok a) k)
    out.sess.context.interview_completed = some true ∧
    out.sess.context.overall_score = some score ∧
    out.sess.context.strengths = some (a.strengths.getD []) ∧
    out.sess.context.weaknesses = some (a.weaknesses.getD []) ∧
    out.sess.context.recommendation = some rc ∧
    out.sess.context.passed = some pb ∧
    out.toUpstream = [.functionCallOutput k
      { status := "success", message := "Интервью завершено"
        overall_score := some score, passed := some pb }] ∧
    out.toClient = [.interviewCompleted decision
        ("/complete.html?score=" ++ toString score ++ "&passed=" ++
          (if pb then "1" else "0") ++ "&decision=" ++ decision),
      .forwarded (.functionCall "end_interview" (.ok a) k)] ∧
    countCompleted out.toClient = 1 := by
  have h1' : ¬ s.answered_primary < s.min_primary_required := not_lt.mpr h1
  have h2' : ¬ s.user_speaking_ms < s.min_dialog_ms := not_lt.mpr h2
  simp [proxy_openai_step, handle_function_call, score_and_finalize, h1', h2', countCompleted]

/-- A session whose completion thresholds are already met, used as the
concrete instance for the successful `end_interview` theorem. -/
def c1Session : Session :=
  { initSession "s1" "c1" [] with answered_primary := 3, user_speaking_ms := 60000 }

/-- Concrete `end_interview` arguments for the witness: score 80,
recommendation `hire`. -/
def c1Args : Args := { overall_score := some 80, recommendation := some "hire" }

/-- Witness for `end_interview_success_effects` at a concrete session with
both thresholds met. -/
theorem end_interview_success_effects_witness :
    (proxy_openai_step c1Session
      (.functionCall "end_interview" (.ok c1Args) none)).sess.context.interview_completed
        = some true ∧
    (proxy_openai_step c1Session
      (.functionCall "end_interview" (.ok c1Args) none)).toClient =
      [.interviewCompleted "hired" "/complete.html?score=80&passed=1&decision=hired",
       .forwarded (.functionCall "end_interview" (.ok c1Args) none)] := by
  have h := end_interview_success_effects c1Session c1Args none (by decide) (by decide)
  exact ⟨h.1, h.2.2.2.2.2.2.2.1.trans (by decide)⟩

/-- Claim C2: an `end_interview` tool call dispatched while a threshold is
unmet returns an `ignored` result whose message reports the shortfall
(remaining primary questions, or remaining seconds of speech), changes no
session state, and emits nothing to the client beyond forwarding the raw
event. -/
theorem end_interview_below_thresholds_ignored (s : Session) (a : Args) (k : Option String)
    (h : s.answered_primary < s.min_primary_required ∨
         s.user_speaking_ms < s.min_dialog_ms) :
    proxy_openai_step s (.functionCall "end_interview" (.ok a) k) =
      { sess := s
        toUpstream := [.functionCallOutput k
          { status := "ignored"
            message :=
              if s.answered_primary < s.min_primary_required then
                "Слишком рано для завершения. Нужно ещё " ++
                  toString (s.min_primary_required - s.answered_primary) ++ " вопросов"
              else
                "Недостаточно диалога. Нужно ещё " ++
                  toString ((s.min_dialog_ms - s.user_speaking_ms) / 1000) ++ " секунд речи" }]
        toClient := [.forwarded (.functionCall "end_interview" (.ok a) k)] } := by
  by_cases h1 : s.answered_primary < s.min_primary_required
  · simp [proxy_openai_step, handle_function_call, h1]
  · have h2 := h.resolve_left h1
    simp [proxy_openai_step, handle_function_call, h1, h2]

/-- Witness for `end_interview_below_thresholds_ignored` at a fresh session
(0 of 3 required primary answers). -/
theorem end_interview_below_thresholds_ignored_witness :
    proxy_openai_step (initSession "s2" "c2" [])
        (.functionCall "end_interview" (.ok {}) none) =
      { sess := initSession "s2" "c2" []
        toUpstream := [.functionCallOutput none
          { status := "ignored"
            message :=
              if (initSession "s2" "c2" []).answered_primary <
                  (initSession "s2" "c2" []).min_primary_required then
                "Слишком рано для завершения. Нужно ещё " ++
                  toString ((initSession "s2" "c2" []).min_primary_required -
                    (initSession "s2" "c2" []).answered_primary) ++ " вопросов"
              else
                "Недостаточно диалога. Нужно ещё " ++
                  toString (((initSession "s2" "c2" []).min_dialog_ms -
                    (initSession "s2" "c2" []).user_speaking_ms) / 1000) ++ " секунд речи" }]
        toClient := [.forwarded (.functionCall "end_interview" (.ok {}) none)] } :=
  end_interview_below_thresholds_ignored (initSession "s2" "c2" []) {} none
    (Or.inl (by decide))

/-- Claim C3 counterexample: a first-per-response `question_asked` call that
passes `is_primary = true` explicitly, referencing index 1 whose scenario
competence is `intro`, still increments `answered_primary` and emits a
`progress.update` — the competence check (realtime.py line 459) only runs
when `args.get("is_primary")` is falsy, so the claim's "only if the question
at the referenced index is primary" is violated. -/
theorem question_asked_intro_counterexample :
    (initSession "s3" "c3" [⟨"intro", "q1"⟩, ⟨"stack", "q2"⟩]).scenario.get? 0 =
      some ⟨"intro", "q1"⟩ ∧
    (initSession "s3" "c3" [⟨"intro", "q1"⟩, ⟨"stack", "q2"⟩]).question_marked = false ∧
    (proxy_openai_step (initSession "s3" "c3" [⟨"intro", "q1"⟩, ⟨"stack", "q2"⟩])
        (.functionCall "question_asked"
          (.ok { index := some 1, is_primary := some true }) none)).sess.answered_primary
      = (initSession "s3" "c3" [⟨"intro", "q1"⟩, ⟨"stack", "q2"⟩]).answered_primary + 1 ∧
    countProgress (proxy_openai_step (initSession "s3" "c3" [⟨"intro", "q1"⟩, ⟨"stack", "q2"⟩])
        (.functionCall "question_asked"
          (.ok { index := some 1, is_primary := some true }) none)).toClient = 1 := by
  decide

/-- Claim C3 (amended): a first-per-response `question_asked` call increments
`answered_primary`, advances `current_question` by one clamped step, and
emits a `progress.update` (iff the clamped step actually moved) exactly when
the call is *effectively primary*: the `is_primary` argument (defaulting to
true) decides, except that when that argument is not literally `true` and the
scenario lookup at the referenced index succeeds, the entry's competence
∉ {intro, final} decides instead. -/
theorem question_asked_progress_characterization (s : Session) (a : Args)
    (k : Option String) (h : s.question_marked = false) :
    (proxy_openai_step s (.functionCall "question_asked" (.ok a) k)).sess.answered_primary
        = s.answered_primary +
          (if effectiveIsPrimary s.scenario a (a.index.getD (Int.ofNat s.current_question + 1))
           then 1 else 0) ∧
    (proxy_openai_step s (.functionCall "question_asked" (.ok a) k)).sess.current_question
        = (if effectiveIsPrimary s.scenario a (a.index.getD (Int.ofNat s.current_question + 1))
           then max s.current_question (max 1 (min (s.current_question + 1) s.total_questions))
           else s.current_question) ∧
    countProgress (proxy_openai_step s (.functionCall "question_asked" (.ok a) k)).toClient
        = (if effectiveIsPrimary s.scenario a (a.index.getD (Int.ofNat s.current_question + 1)) ∧
             max 1 (min (s.current_question + 1) s.total_questions) > s.current_question
           then 1 else 0) := by
  rw [step_qa_unmarked s a k h]
  have hq := qae_spec s a
  refine ⟨hq.1, hq.2.1, ?_⟩
  simp only [countProgress, List.countP_append] at *
  simpa using hq.2.2

/-- Witness for `question_asked_progress_characterization`: a fresh session
over a one-primary-question scenario, `question_asked` with no arguments. -/
theorem question_asked_progress_characterization_witness :
    (proxy_openai_step (initSession "s3w" "c3w" [⟨"stack", "q"⟩])
        (.functionCall "question_asked" (.ok {}) none)).sess.answered_primary
      = (initSession "s3w" "c3w" [⟨"stack", "q"⟩]).answered_primary +
        (if effectiveIsPrimary (initSession "s3w" "c3w" [⟨"stack", "q"⟩]).scenario {}
            ((Args.index {}).getD
              (Int.ofNat (initSession "s3w" "c3w" [⟨"stack", "q"⟩]).current_question + 1))
         then 1 else 0) :=
  (question_asked_progress_characterization (initSession "s3w" "c3w" [⟨"stack", "q"⟩])
    {} none (by decide)).1

/-- Claim C4 counterexample: a `response.function_call` whose `arguments`
string is unparseable is *not* dispatched with an empty argument set, and the
loop does *not* continue — the relay stops, never reaching the following
well-formed `evaluate_answer` call: the whole two-message batch produces no
state change and no output at all. -/
theorem bad_arguments_counterexample :
    proxy_openai_loop (initSession "s4" "c4" [])
      [UpMsg.functionCall "evaluate_answer" .bad none,
       UpMsg.functionCall "evaluate_answer" (.ok { score := some 70 }) none] =
      (initSession "s4" "c4" [], [], []) := by
  decide

/-- Claim C4 (amended): a `response.function_call` whose arguments fail to
parse raises inside the dispatch step (the unguarded `json.loads`,
realtime.py line 413); the exception is caught by the handler *outside* the
read loop, which logs it, and the loop terminates — the call is not
dispatched, no message is sent in either direction, the session is unchanged,
and the remaining upstream messages are never read. -/
theorem bad_arguments_terminate_loop (s : Session) (n : String) (k : Option String)
    (rest : List UpMsg) :
    proxy_openai_loop s (UpMsg.functionCall n .bad k :: rest) = (s, [], []) := by
  simp [proxy_openai_loop, proxy_openai_step]

/-- Claim C5: an `input_audio_buffer.append` message from the client while
`assistant_speaking` is true is silently dropped — nothing is sent upstream
or back, and the session is unchanged — while messages of every other
pass-through type received in that state still produce at least one upstream
send. -/
theorem barge_in_audio_dropped :
    (∀ (s : Session) (d : CliInMsg), d.etype = "input_audio_buffer.append" →
      s.assistant_speaking = true →
      proxy_client_step s d = { sess := s, toUpstream := [], toClient := [] }) ∧
    (∀ (s : Session) (d : CliInMsg), s.assistant_speaking = true →
      d.etype ∈ ["conversation.item.create", "response.create", "response.cancel",
        "function_call_output", "conversation.item.input_audio_transcription.completed"] →
      (proxy_client_step s d).toUpstream ≠ []) := by
  constructor
  · intro s d h1 h2
    simp [proxy_client_step, h1, h2]
  · intro s d hs hm
    simp only [List.mem_cons, List.not_mem_nil, or_false] at hm
    rcases hm with h | h | h | h | h
    · simp [proxy_client_step, h]
    · by_cases ha : s.active_response_id.isSome <;> simp [proxy_client_step, h, ha]
    · simp [proxy_client_step, h]
    · simp [proxy_client_step, h]
    · simp [proxy_client_step, h]

/-- Witness for `barge_in_audio_dropped`: a speaking session drops a concrete
audio-append message. -/
theorem barge_in_audio_dropped_witness :
    proxy_client_step { initSession "s5" "c5" [] with assistant_speaking := true }
        { etype := "input_audio_buffer.append" } =
      { sess := { initSession "s5" "c5" [] with assistant_speaking := true }
        toUpstream := [], toClient := [] } :=
  barge_in_audio_dropped.1 { initSession "s5" "c5" [] with assistant_speaking := true }
    { etype := "input_audio_buffer.append" } rfl rfl

/-- Claim C6 counterexample: two consecutive upstream `response.created`
events (reachable from a fresh session) replace `active_response_id = "A"` by
the different non-null `"B"` in one transition that sends nothing upstream
(so no cancel) and is not a done event — the handler at realtime.py line 400
assigns unconditionally. -/
theorem active_response_overwritten_counterexample :
    (stepEv (initSession "s6" "c6" [])
        (.fromUpstream (.responseCreated (some "A")))).sess.active_response_id
      = some "A" ∧
    Overwrites
      (stepEv (initSession "s6" "c6" [])
        (.fromUpstream (.responseCreated (some "A")))).sess
      (.fromUpstream (.responseCreated (some "B"))) ∧
    (stepEv (stepEv (initSession "s6" "c6" [])
        (.fromUpstream (.responseCreated (some "A")))).sess
      (.fromUpstream (.responseCreated (some "B")))).toUpstream = [] := by
  exact ⟨rfl, ⟨"A", "B", rfl, rfl, by decide⟩, rfl⟩

/-- Claim C6 (amended): a non-null `active_response_id` is replaced by a
different non-null value only by an upstream `response.created` event, whose
handler overwrites it unconditionally; the single-active-response guarantee
the code does enforce is on the client side — a client `response.create`
received while `active_response_id` is non-null causes a `response.cancel`
to be sent upstream immediately before the forwarded create. -/
theorem active_response_overwrite_characterization :
    (∀ (s : Session) (e : Ev), Overwrites s e →
      ∃ rid, e = Ev.fromUpstream (UpMsg.responseCreated rid)) ∧
    (∀ (s : Session) (d : CliInMsg), d.etype = "response.create" →
      s.active_response_id.isSome = true →
      (proxy_client_step s d).toUpstream = [.responseCancel, .forwardedClient d]) := by
  constructor
  · intro s e h
    obtain ⟨a, b, ha, hb, hab⟩ := h
    rcases (stepEv_sess s e).2.2.2 with hc | hc | hc
    · rw [hb, ha] at hc
      exact absurd (Option.some.inj hc) hab.symm
    · rw [hb] at hc
      exact absurd hc (Option.some_ne_none b)
    · exact hc
  · intro s d hd hsome
    simp [proxy_client_step, hd, hsome]

/-- Witness for `active_response_overwrite_characterization`: both parts at
concrete inputs — an overwrite step is a `response.created`, and a concrete
create-while-active sends the cancel first. -/
theorem active_response_overwrite_characterization_witness :
    (∃ rid, Ev.fromUpstream (UpMsg.responseCreated (some "B")) =
      Ev.fromUpstream (UpMsg.responseCreated rid)) ∧
    (proxy_client_step { initSession "s6w" "c6w" [] with active_response_id := some "A" }
        { etype := "response.create" }).toUpstream =
      [.responseCancel, .forwardedClient { etype := "response.create" }] :=
  ⟨active_response_overwrite_characterization.1
      { initSession "s6w" "c6w" [] with active_response_id := some "A" }
      (.fromUpstream (.responseCreated (some "B")))
      ⟨"A", "B", rfl, rfl, by decide⟩,
   active_response_overwrite_characterization.2
      { initSession "s6w" "c6w" [] with active_response_id := some "A" }
      { etype := "response.create" } rfl rfl⟩

/-- Claim C7: from session creation on, `current_question` always stays in
`[0, total_questions]` (the lower bound is inherent to the `Nat` counter) and
never decreases across any transition of either relay, over every
interleaved event trace. -/
theorem current_question_bounded_monotone :
    (∀ sid cid sc, SessionInv (initSession sid cid sc)) ∧
    (∀ (s : Session) (es : List Ev), SessionInv s → SessionInv (runEvents s es)) ∧
    (∀ (s : Session) (es : List Ev) (e : Ev), SessionInv s →
      (runEvents s es).current_question ≤ (runEvents s (es ++ [e])).current_question) := by
  refine ⟨?_, fun s es h => runEvents_inv s es h, ?_⟩
  · intro sid cid sc
    constructor
    · simp only [initSession, totalQuestionsFor]
      split
      · exact le_max_left 1 _
      · omega
    · exact Nat.zero_le _
  · intro s es e h
    have hr : runEvents s (es ++ [e]) = (stepEv (runEvents s es) e).sess := by
      simp [runEvents, List.foldl_append]
    rw [hr]
    exact (stepEv_sess (runEvents s es) e).2.1

/-- Witness for `current_question_bounded_monotone`: the invariant and
monotonicity at a concrete fresh session and a one-event trace. -/
theorem current_question_bounded_monotone_witness :
    SessionInv (runEvents (initSession "s7" "c7" [⟨"stack", "q"⟩]) []) ∧
    (runEvents (initSession "s7" "c7" [⟨"stack", "q"⟩]) []).current_question ≤
      (runEvents (initSession "s7" "c7" [⟨"stack", "q"⟩])
        ([] ++ [Ev.fromUpstream (.responseCreated (some "A"))])).current_question :=
  ⟨current_question_bounded_monotone.2.1 (initSession "s7" "c7" [⟨"stack", "q"⟩]) []
      ⟨by decide, by decide⟩,
   current_question_bounded_monotone.2.2 (initSession "s7" "c7" [⟨"stack", "q"⟩]) []
      (Ev.fromUpstream (.responseCreated (some "A"))) ⟨by decide, by decide⟩⟩

/-- Claim C8: of two consecutive `question_asked` tool calls with no
intervening `response.created` (which is what resets `question_marked`), the
second changes no session state and emits no `progress.update` — its entire
effect is the error echo upstream and the raw event forwarded — and the pair
emits at most one `progress.update` in total. -/
theorem question_asked_debounced (s : Session) (a1 a2 : Args) (k1 k2 : Option String) :
    proxy_openai_step (proxy_openai_step s (.functionCall "question_asked" (.ok a1) k1)).sess
        (.functionCall "question_asked" (.ok a2) k2) =
      { sess := (proxy_openai_step s (.functionCall "question_asked" (.ok a1) k1)).sess
        toUpstream := [.functionCallOutput k2
          { status := "error", message := "Неизвестная функция: question_asked" }]
        toClient := [.forwarded (.functionCall "question_asked" (.ok a2) k2)] } ∧
    countProgress (proxy_openai_step s
        (.functionCall "question_asked" (.ok a1) k1)).toClient ≤ 1 := by
  constructor
  · exact step_qa_marked _ a2 k2 (step_qa_marked_after s a1 k1)
  · by_cases h : s.question_marked
    · simp [step_qa_marked s a1 k1 h, countProgress]
    · rw [Bool.not_eq_true] at h
      rw [step_qa_unmarked s a1 k1 h]
      have hle := qae_progress_le s a1
      simp only [countProgress, List.countP_append] at *
      simpa using hle

/-- Claim C9 counterexample: a scenario with competences `[intro, final]` has
zero primary entries, so the claim predicts `total_questions = max 1 0 = 1`;
the code's `max(1, primary_count or len(scenario))` (realtime.py line 170)
falls back to the scenario length and yields 2. -/
theorem total_questions_counterexample :
    (initSession "s9" "c9" [⟨"intro", "a"⟩, ⟨"final", "b"⟩]).total_questions = 2 ∧
    specTotalQuestions [⟨"intro", "a"⟩, ⟨"final", "b"⟩] = 1 := by
  decide

/-- Claim C9 (amended): for a non-empty scenario, `total_questions` equals the
number of entries whose competence is non-empty and neither `intro` nor
`final` when that number is positive; when it is zero, the fallback is the
scenario's full length (minimum 1).  The claim's own example
`[intro, stack, cases, final]` does yield 2. -/
theorem total_questions_characterization :
    (∀ (sid cid : String) (sc : List ScenarioItem), sc ≠ [] → 1 ≤ primaryCount sc →
      (initSession sid cid sc).total_questions = primaryCount sc) ∧
    (∀ (sid cid : String) (sc : List ScenarioItem), sc ≠ [] → primaryCount sc = 0 →
      (initSession sid cid sc).total_questions = max 1 sc.length) ∧
    (initSession "s9a" "c9a"
      [⟨"intro", "a"⟩, ⟨"stack", "b"⟩, ⟨"cases", "c"⟩, ⟨"final", "d"⟩]).total_questions = 2 := by
  refine ⟨?_, ?_, by decide⟩
  · intro sid cid sc hne hpc
    simp only [initSession, totalQuestionsFor]
    rw [if_pos hne, if_pos (by omega)]
    omega
  · intro sid cid sc hne hpc
    simp only [initSession, totalQuestionsFor]
    rw [if_pos hne, if_neg (by omega)]

/-- Witness for `total_questions_characterization`: the primary-count branch
at a concrete one-primary-question scenario. -/
theorem total_questions_characterization_witness :
    (initSession "s9w" "c9w" [⟨"stack", "q"⟩]).total_questions =
      primaryCount [⟨"stack", "q"⟩] :=
  total_questions_characterization.1 "s9w" "c9w" [⟨"stack", "q"⟩] (by decide) (by decide)

/-- Claim C10: a tool call whose function name is none of `evaluate_answer`,
`question_asked`, `end_interview` makes `handle_function_call` return an
`error` result naming the unknown function and leaves every session field
unchanged. -/
theorem unknown_function_rejected (s : Session) (n : String) (a : Args)
    (h : n ∉ ["evaluate_answer", "question_asked", "end_interview"]) :
    handle_function_call s n a =
      (s, { status := "error", message := "Неизвестная функция: " ++ n }) := by
  simp only [List.mem_cons, List.not_mem_nil, or_false, not_or] at h
  simp [handle_function_call, h.1, h.2.2]

/-- Witness for `unknown_function_rejected` at a concrete unknown name. -/
theorem unknown_function_rejected_witness :
    handle_function_call (initSession "s10" "c10" []) "restart_interview" {} =
      (initSession "s10" "c10" [],
       { status := "error", message := "Неизвестная функция: " ++ "restart_interview" }) :=
  unknown_function_rejected (initSession "s10" "c10" []) "restart_interview" {} (by decide)

end HrAi
